import Mathlib

/-!
Shallow embedding of the Angular frontend of the numerical-methods tool
(Project-numerical-phase1): the `ApiService` request preparation
(`solveSystem` in its two default-filling revisions), the `ThemeService`,
and the `LinearSystemSolverComponent` / `RootFinderComponent` state
machines, together with theorems settling the frozen claims about them.

JavaScript conventions are made explicit:
* a possibly-missing object field is an `Option`;
* a JS number field that can be `null` or `undefined` (which loose `==`
  conflates and strict `===` distinguishes) is a `JSNum`;
* JS floating-point numbers never enter any arithmetic relevant to a
  claim, so numeric fields carried through unchanged are modelled as
  `Int` / `ℚ` pass-through values;
* `a || b` on strings (empty string is falsy) is `jsOrString`.
-/

namespace NumPhase1

/-- A JavaScript number slot that may hold a number, `null`, or `undefined`.
Loose equality `x == null` holds for both `jsNull` and `jsUndef`; strict
equality `x === null` holds only for `jsNull`. -/
inductive JSNum where
  | val (n : Int)
  | jsNull
  | jsUndef
deriving DecidableEq

/-- The `SolveRequest` interface of `api.service.ts` (linear-system solve
payload). Optional fields are `Option`; `precision` is a `JSNum` because the
two service revisions test it against `null` with `==` resp. `===`. -/
structure SolveRequest where
  method : String
  matrix : List (List String)
  constants : List String
  precision : JSNum
  scaling : Option Bool
  stepByStep : Option Bool
  luForm : Option String
  initialGuess : Option (List String)
  stoppingCondition : Option String
  maxIterations : Option Int
  tolerance : Option ℚ
  symbolic : Option Bool
deriving DecidableEq

/-- The `SolveResponse` interface of `api.service.ts`. -/
structure SolveResponse where
  solution : Option (List String)
  executionTime : String
  iterations : Option Int
  steps : Option (List String)
  message : Option String
  error : Option String
deriving DecidableEq

/-- A thrown JavaScript runtime error (here only the `TypeError` raised by
dereferencing `undefined`, from `request.initialGuess!.map`). -/
inductive JsError where
  | typeError
deriving DecidableEq

/-- `cell === '' ? '0' : cell` — the default fill for matrix and constants
cells in `ApiService.solveSystem`. -/
def fillCellZero (cell : String) : String :=
  if cell = "" then "0" else cell

/-- `cell === '' ? '1' : cell` — the default fill for initial-guess cells in
`ApiService.solveSystem`. -/
def fillCellOne (cell : String) : String :=
  if cell = "" then "1" else cell

/-- `/^[a-zA-Z]$/.test(cell)`: the cell is exactly one ASCII letter. -/
def isAlphaCell (cell : String) : Bool :=
  match cell.toList with
  | [ch] => (Char.ofNat 97 ≤ ch && ch ≤ Char.ofNat 122) || (Char.ofNat 65 ≤ ch && ch ≤ Char.ofNat 90)
  | _ => false

/-- The inner cell loop of the symbolic-detection scan in
`ApiService.solveSystem` (revision with the `symbolic` flag): for each cell
of the row, an alphabetic cell sets the flag to `true` and continues; a
non-alphabetic cell sets the flag to `false` and `break`s out of the inner
loop only. `flag` is the value of `request.symbolic` entering the row
(`none` models the field being still `undefined`). -/
def rowScan (flag : Option Bool) : List String → Option Bool
  | [] => flag
  | c :: rest => if isAlphaCell c then rowScan (some true) rest else some false

/-- The full two-level symbolic-detection loop: the outer row loop never
breaks, so each row is scanned by `rowScan` in order. -/
def symbolicScan (flag : Option Bool) (rows : List (List String)) : Option Bool :=
  rows.foldl rowScan flag

/-- The cells of one row that the inner loop actually examines: the
all-alphabetic prefix plus, if present, the first non-alphabetic cell (at
which the inner loop breaks). -/
def scannedOfRow (row : List String) : List String :=
  row.takeWhile isAlphaCell ++ (row.dropWhile isAlphaCell).take 1

/-- All matrix cells examined by the symbolic-detection scan, in scan
order (every row is entered; each contributes its scanned cells). -/
def scannedCells (rows : List (List String)) : List String :=
  rows.flatMap scannedOfRow

/-- `if (request.precision == null) request.precision = 4` — the loose-null
precision default of the `api.service.ts` revisions that post to
`/solve/linear` (and the intermediate `/solve` revision): fires on both
`null` and `undefined`. -/
def fillPrecisionLoose (p : JSNum) : JSNum :=
  match p with
  | JSNum.val n => JSNum.val n
  | _ => JSNum.val 4

/-- `if (request.precision === null) request.precision = 5` — the strict-null
precision default of the earlier `api.service.ts` revision: fires only on
`null`, not on `undefined`. -/
def fillPrecisionStrict (p : JSNum) : JSNum :=
  if p = JSNum.jsNull then JSNum.val 5 else p

/-- The mutation `ApiService.solveSystem` performs on the request before
`http.post`, in the revision carrying the symbolic-detection loop
(`src/unnamed/part_001`): matrix and constants cells default-filled with
`"0"`, initial-guess cells with `"1"` (via the non-null assertion
`request.initialGuess!`, which throws a `TypeError` when the field is
absent, so nothing is posted), loose-null precision default `4`, then the
symbolic scan over the already-filled matrix. `.ok` is the request as
transmitted; `.error` means the call threw before any HTTP request. -/
def solveSystemPrepareA (request : SolveRequest) : Except JsError SolveRequest :=
  let matrixF := request.matrix.map (fun row => row.map fillCellZero)
  let constantsF := request.constants.map fillCellZero
  match request.initialGuess with
  | none => Except.error JsError.typeError
  | some g =>
      Except.ok { request with
        matrix := matrixF
        constants := constantsF
        initialGuess := some (g.map fillCellOne)
        precision := fillPrecisionLoose request.precision
        symbolic := symbolicScan request.symbolic matrixF }

/-- The mutation `ApiService.solveSystem` performs on the request in the
revision of `src/unnamed/part_000`: same `"0"` / `"1"` default filling
(with the same throwing `initialGuess!` dereference), but the precision
default is `5` guarded by strict `=== null`, and there is no symbolic
scan. -/
def solveSystemPrepareB (request : SolveRequest) : Except JsError SolveRequest :=
  let matrixF := request.matrix.map (fun row => row.map fillCellZero)
  let constantsF := request.constants.map fillCellZero
  match request.initialGuess with
  | none => Except.error JsError.typeError
  | some g =>
      Except.ok { request with
        matrix := matrixF
        constants := constantsF
        initialGuess := some (g.map fillCellOne)
        precision := fillPrecisionStrict request.precision }

/-- JavaScript `String(b)` on a boolean, as used by
`localStorage.setItem('darkMode', String(newValue))`. -/
def jsStringOfBool (b : Bool) : String :=
  if b then "true" else "false"

/-- `ThemeService.getInitialTheme`: `savedTheme` is
`localStorage.getItem('darkMode')` (`none` when the key is absent),
`systemPrefersDark` is `window.matchMedia('(prefers-color-scheme: dark)').matches`.
A stored value is compared against the string `'true'`; absent any stored
value, the OS preference is returned. -/
def getInitialTheme (savedTheme : Option String) (systemPrefersDark : Bool) : Bool :=
  match savedTheme with
  | some s => s == "true"
  | none => systemPrefersDark

/-- `classList.add(c)`: adds the class only if not already present. -/
def classListAdd (classes : List String) (c : String) : List String :=
  if c ∈ classes then classes else classes ++ [c]

/-- `classList.remove(c)`: removes every occurrence of the class. -/
def classListRemove (classes : List String) (c : String) : List String :=
  classes.filter (fun x => x ≠ c)

/-- `ThemeService.applyTheme`: adds the class `"dark"` to
`document.documentElement.classList` when `isDark`, removes it otherwise. -/
def applyTheme (classes : List String) (isDark : Bool) : List String :=
  if isDark then classListAdd classes "dark" else classListRemove classes "dark"

/-- The observable state `ThemeService` touches: the in-memory
`darkModeSubject` value, the `localStorage['darkMode']` entry, and the root
document element's class list. -/
structure ThemeState where
  darkMode : Bool
  storedDarkMode : Option String
  rootClasses : List String
deriving DecidableEq

/-- `ThemeService.toggleDarkMode`: `newValue = !darkModeSubject.value`;
pushes `newValue` into the subject, applies the theme to the root element,
and writes `String(newValue)` under `localStorage['darkMode']`. -/
def toggleDarkMode (s : ThemeState) : ThemeState :=
  let newValue := !s.darkMode
  { darkMode := newValue
    rootClasses := applyTheme s.rootClasses newValue
    storedDarkMode := some (jsStringOfBool newValue) }

/-- The JSON body of a failed HTTP response (`error.error` in an Angular
`HttpErrorResponse`), with its optional `error` and `message` string
fields. -/
structure HttpErrorBody where
  error : Option String
  message : Option String
deriving DecidableEq

/-- JavaScript `a || b` where `a` is an optional string (an absent field is
`undefined`, hence falsy; the empty string is also falsy) and `b` is the
next alternative. -/
def jsOrString (a : Option String) (b : String) : String :=
  match a with
  | some s => if s = "" then b else s
  | none => b

/-- The component state of `LinearSystemSolverComponent`
(`src/unnamed/part_002`). `simulationInterval` is the stored timer handle
(`none` models `null`); JS numeric fields that never enter arithmetic are
carried as `Int` / `ℚ`. -/
structure LinearState where
  numEquations : Nat
  matrix : List (List String)
  constants : List String
  method : String
  luForm : String
  precision : Int
  initialGuess : List String
  maxIterations : Int
  tolerance : ℚ
  useScaling : Bool
  stepByStep : Bool
  result : Option SolveResponse
  steps : List String
  currentStep : Int
  loading : Bool
  errorMessage : String
  isPlaying : Bool
  speedLevel : Int
  simulationInterval : Option Nat
deriving DecidableEq

/-- The field initializers of `LinearSystemSolverComponent`. -/
def initialLinearState : LinearState where
  numEquations := 3
  matrix := []
  constants := []
  method := "gauss-elimination"
  luForm := "doolittle"
  precision := 5
  initialGuess := []
  maxIterations := 50
  tolerance := 1 / 100000
  useScaling := false
  stepByStep := true
  result := none
  steps := []
  currentStep := 0
  loading := false
  errorMessage := ""
  isPlaying := false
  speedLevel := 5
  simulationInterval := none

/-- `LinearSystemSolverComponent.initializeMatrix`: a `numEquations` ×
`numEquations` matrix of empty strings, `numEquations` empty constants and
`numEquations` `'0'` initial guesses. -/
def initializeMatrix (s : LinearState) : LinearState :=
  { s with
    matrix := List.replicate s.numEquations (List.replicate s.numEquations "")
    constants := List.replicate s.numEquations ""
    initialGuess := List.replicate s.numEquations "0" }

/-- `LinearSystemSolverComponent.ngOnInit` calls `initializeMatrix`. -/
def ngOnInit (s : LinearState) : LinearState :=
  initializeMatrix s

/-- `LinearSystemSolverComponent.addEquation`: increments `numEquations`,
pushes an empty cell onto every row, pushes a fresh row of the new width,
and pushes one constant and one `'0'` guess. -/
def addEquation (s : LinearState) : LinearState :=
  let n := s.numEquations + 1
  { s with
    numEquations := n
    matrix := s.matrix.map (fun row => row ++ [""]) ++ [List.replicate n ""]
    constants := s.constants ++ [""]
    initialGuess := s.initialGuess ++ ["0"] }

/-- `LinearSystemSolverComponent.removeEquation`: only when more than two
equations remain, decrements `numEquations`, pops the last cell of every
row, pops the last row, the last constant and the last guess. -/
def removeEquation (s : LinearState) : LinearState :=
  if 2 < s.numEquations then
    { s with
      numEquations := s.numEquations - 1
      matrix := (s.matrix.map List.dropLast).dropLast
      constants := s.constants.dropLast
      initialGuess := s.initialGuess.dropLast }
  else s

/-- `LinearSystemSolverComponent.stopSimulation`: clears `isPlaying` and,
when a timer handle is held, clears the interval and nulls the handle
(browser interval ids are never the falsy `0`, so the truthiness guard is
the `isSome` test and the resulting handle is always `none`). -/
def linStopSimulation (s : LinearState) : LinearState :=
  { s with isPlaying := false, simulationInterval := none }

/-- `LinearSystemSolverComponent.previousStep`. -/
def linPreviousStep (s : LinearState) : LinearState :=
  if 0 < s.currentStep then { s with currentStep := s.currentStep - 1 } else s

/-- `LinearSystemSolverComponent.nextStep`: increments `currentStep` while
`currentStep < steps.length - 1` (JS number arithmetic, so the comparison
is over `Int`), otherwise stops the simulation. -/
def linNextStep (s : LinearState) : LinearState :=
  if s.currentStep < (s.steps.length : Int) - 1 then
    { s with currentStep := s.currentStep + 1 }
  else linStopSimulation s

/-- The synchronous part of `LinearSystemSolverComponent.handleSolve`: sets
`loading`, resets result/steps/step index, stops the simulation, builds the
`SolveRequest` payload from the form fields, and hands it to
`ApiService.solveSystem` (modelled by `solveSystemPrepareA`). The second
component of the result is the HTTP request actually transmitted (`none`
would mean the service threw before posting). -/
def linHandleSolve (s : LinearState) : LinearState × Option SolveRequest :=
  let after := linStopSimulation
    { s with loading := true, result := none, steps := [], currentStep := 0 }
  let payload : SolveRequest :=
    { method := s.method
      matrix := s.matrix
      constants := s.constants
      precision := JSNum.val s.precision
      scaling := some s.useScaling
      stepByStep := some s.stepByStep
      luForm := some s.luForm
      initialGuess := some s.initialGuess
      stoppingCondition := none
      maxIterations := some s.maxIterations
      tolerance := some s.tolerance
      symbolic := none }
  (after, (solveSystemPrepareA payload).toOption)

/-- The error callback of `LinearSystemSolverComponent.handleSolve`'s
subscription: `errorMessage = error.error?.message || 'An error occurred'`
and `loading = false`. `body` is `error.error` (the HTTP error body, absent
when the response carried none). -/
def linHandleSolveOnError (s : LinearState) (body : Option HttpErrorBody) : LinearState :=
  { s with
    errorMessage := jsOrString (body.bind HttpErrorBody.message) "An error occurred"
    loading := false }

/-- `LinearSystemSolverComponent.clearAll`: re-initializes the matrix,
clears result, steps, step index and error message, and stops the
simulation. -/
def clearAll (s : LinearState) : LinearState :=
  linStopSimulation
    { initializeMatrix s with result := none, steps := [], currentStep := 0, errorMessage := "" }

/-- The `RootFindingRequest` payload of `api.service.ts`, plus the
`gEquation` field the root-finder component attaches at runtime although
the interface does not declare it. -/
structure RootFindingRequest where
  method : String
  equation : String
  xLower : Option String
  xUpper : Option String
  x0 : Option String
  x1 : Option String
  gEquation : Option String
  precision : Option Int
  eps : ℚ
  maxIterations : Int
  stepByStep : Option Bool
deriving DecidableEq

/-- The `RootFindingResponse` interface (numeric JS values abstracted as
`ℚ`; no arithmetic on them is performed client-side). -/
structure RootFindingResponse where
  root : Option ℚ
  iterations : Option Int
  approximateError : Option ℚ
  significantFigures : Option Int
  executionTime : String
  steps : Option (List String)
  plotImage : Option String
  message : Option String
  error : Option String
deriving DecidableEq

/-- The component state of `RootFinderComponent`
(`src/Frontend/.../root-finder/root-finder.ts`). -/
structure RootFinderState where
  equation : String
  method : String
  xLower : String
  xUpper : String
  x0 : String
  x1 : String
  gEquation : String
  precision : Int
  eps : ℚ
  maxIterations : Int
  stepByStep : Bool
  result : Option RootFindingResponse
  steps : List String
  currentStep : Int
  loading : Bool
  errorMessage : String
  plotImage : Option String
  loadingPlot : Bool
  plotErrorMessage : String
  isPlaying : Bool
  speedLevel : Int
  simulationInterval : Option Nat
deriving DecidableEq

/-- `RootFinderComponent.requiresInterval`. -/
def requiresInterval (s : RootFinderState) : Bool :=
  s.method == "bisection" || s.method == "false-position"

/-- `RootFinderComponent.requiresSingleGuess`. -/
def requiresSingleGuess (s : RootFinderState) : Bool :=
  s.method == "fixed-point" || s.method == "newton" || s.method == "modified-newton"

/-- `RootFinderComponent.requiresTwoGuesses`. -/
def requiresTwoGuesses (s : RootFinderState) : Bool :=
  s.method == "secant"

/-- `RootFinderComponent.stopSimulation` (identical to the linear
component's copy). -/
def rootStopSimulation (s : RootFinderState) : RootFinderState :=
  { s with isPlaying := false, simulationInterval := none }

/-- `RootFinderComponent.previousStep`. -/
def rootPreviousStep (s : RootFinderState) : RootFinderState :=
  if 0 < s.currentStep then { s with currentStep := s.currentStep - 1 } else s

/-- `RootFinderComponent.nextStep`: increments `currentStep` while
`currentStep < steps.length - 1`, otherwise stops the simulation. -/
def rootNextStep (s : RootFinderState) : RootFinderState :=
  if s.currentStep < (s.steps.length : Int) - 1 then
    { s with currentStep := s.currentStep + 1 }
  else rootStopSimulation s

/-- The synchronous part of `RootFinderComponent.handleSolve`: sets
`loading`, resets results, builds the `RootFindingRequest` with the
method-specific parameters, and posts it via `ApiService.solveRootFinding`
(which transmits the payload unconditionally). The second component is the
transmitted request. -/
def rootHandleSolve (s : RootFinderState) : RootFinderState × Option RootFindingRequest :=
  let after := rootStopSimulation
    { s with loading := true, result := none, steps := [], currentStep := 0, errorMessage := "" }
  let base : RootFindingRequest :=
    { method := s.method
      equation := s.equation
      xLower := none
      xUpper := none
      x0 := none
      x1 := none
      gEquation := none
      precision := some s.precision
      eps := s.eps
      maxIterations := s.maxIterations
      stepByStep := some s.stepByStep }
  let payload :=
    if requiresInterval s then
      { base with xLower := some s.xLower, xUpper := some s.xUpper }
    else if requiresSingleGuess s then
      let withX0 := { base with x0 := some s.x0 }
      if s.method == "fixed-point" && s.gEquation != "" then
        { withX0 with gEquation := some s.gEquation }
      else withX0
    else if requiresTwoGuesses s then
      { base with x0 := some s.x0, x1 := some s.x1 }
    else base
  (after, some payload)

/-- The error callback of `RootFinderComponent.handleSolve`'s subscription:
`errorMessage = error.error?.error || error.error?.message || 'An error
occurred while solving'` and `loading = false`. -/
def rootHandleSolveOnError (s : RootFinderState) (body : Option HttpErrorBody) : RootFinderState :=
  { s with
    errorMessage :=
      jsOrString (body.bind HttpErrorBody.error)
        (jsOrString (body.bind HttpErrorBody.message) "An error occurred while solving")
    loading := false }

/-- The field initializers of `RootFinderComponent` (before `ngOnInit`
installs the example equation). -/
def initialRootState : RootFinderState where
  equation := ""
  method := "bisection"
  xLower := ""
  xUpper := ""
  x0 := ""
  x1 := ""
  gEquation := ""
  precision := 5
  eps := 1 / 100000
  maxIterations := 50
  stepByStep := true
  result := none
  steps := []
  currentStep := 0
  loading := false
  errorMessage := ""
  plotImage := none
  loadingPlot := false
  plotErrorMessage := ""
  isPlaying := false
  speedLevel := 5
  simulationInterval := none

/-- Cell (i, j) of a string matrix, `none` when out of range. -/
def getCell (m : List (List String)) (i j : Nat) : Option String :=
  (m[i]?).bind (fun row => row[j]?)

/-- The shape invariant of the linear-system form: at least two equations, a
square `numEquations` × `numEquations` matrix, and constants and
initial-guess arrays of length `numEquations`. -/
def LinearShapeInv (s : LinearState) : Prop :=
  2 ≤ s.numEquations ∧
  s.matrix.length = s.numEquations ∧
  (∀ row ∈ s.matrix, row.length = s.numEquations) ∧
  s.constants.length = s.numEquations ∧
  s.initialGuess.length = s.numEquations

instance (s : LinearState) : Decidable (LinearShapeInv s) := by
  unfold LinearShapeInv
  infer_instance

/-- A concrete 2 × 2 solve request with empty cells in the matrix, the
constants and the initial guess, used to exercise the default filling. -/
def reqWithEmptyCells : SolveRequest where
  method := "gauss-elimination"
  matrix := [["", "2"], ["x", ""]]
  constants := ["", "3"]
  precision := JSNum.jsNull
  scaling := none
  stepByStep := none
  luForm := none
  initialGuess := some ["", "7"]
  stoppingCondition := none
  maxIterations := none
  tolerance := none
  symbolic := none

/-- What `solveSystemPrepareA` transmits for `reqWithEmptyCells`. -/
def outWithEmptyCells : SolveRequest where
  method := "gauss-elimination"
  matrix := [["0", "2"], ["x", "0"]]
  constants := ["0", "3"]
  precision := JSNum.val 4
  scaling := none
  stepByStep := none
  luForm := none
  initialGuess := some ["1", "7"]
  stoppingCondition := none
  maxIterations := none
  tolerance := none
  symbolic := some false

/-- A concrete solve request whose `precision` slot is `undefined` (the
field is missing) and whose initial guess is present. -/
def reqMissingPrecision : SolveRequest where
  method := "gauss-elimination"
  matrix := [["1"]]
  constants := ["2"]
  precision := JSNum.jsUndef
  scaling := none
  stepByStep := none
  luForm := none
  initialGuess := some ["1"]
  stoppingCondition := none
  maxIterations := none
  tolerance := none
  symbolic := none

/-- A concrete solve request whose `precision` slot holds `null`. -/
def reqNullPrecision : SolveRequest where
  method := "jacobi"
  matrix := [["2"]]
  constants := ["4"]
  precision := JSNum.jsNull
  scaling := none
  stepByStep := none
  luForm := none
  initialGuess := some [""]
  stoppingCondition := none
  maxIterations := none
  tolerance := none
  symbolic := none

/-- What `solveSystemPrepareA` transmits for `reqNullPrecision`. -/
def outNullPrecisionA : SolveRequest where
  method := "jacobi"
  matrix := [["2"]]
  constants := ["4"]
  precision := JSNum.val 4
  scaling := none
  stepByStep := none
  luForm := none
  initialGuess := some ["1"]
  stoppingCondition := none
  maxIterations := none
  tolerance := none
  symbolic := some false

/-- What `solveSystemPrepareB` transmits for `reqNullPrecision`. -/
def outNullPrecisionB : SolveRequest where
  method := "jacobi"
  matrix := [["2"]]
  constants := ["4"]
  precision := JSNum.val 5
  scaling := none
  stepByStep := none
  luForm := none
  initialGuess := some ["1"]
  stoppingCondition := none
  maxIterations := none
  tolerance := none
  symbolic := none

/-- A concrete solve request with no `initialGuess` field. -/
def reqNoGuess : SolveRequest where
  method := "gauss-elimination"
  matrix := [["1"]]
  constants := ["2"]
  precision := JSNum.val 4
  scaling := none
  stepByStep := none
  luForm := none
  initialGuess := none
  stoppingCondition := none
  maxIterations := none
  tolerance := none
  symbolic := none

/-! ## Helper lemmas -/

lemma mem_classListAdd (cs : List String) (c : String) :
    c ∈ classListAdd cs c := by
  simp only [classListAdd]
  split <;> simp_all

lemma not_mem_classListRemove (cs : List String) (c : String) :
    c ∉ classListRemove cs c := by
  simp [classListRemove]

lemma getCell_map (m : List (List String)) (f : String → String) (i j : Nat) :
    getCell (m.map fun row => row.map f) i j = (getCell m i j).map f := by
  simp only [getCell, List.getElem?_map]
  cases m[i]? <;> simp [List.getElem?_map]

/-- The inner loop's verdict on one row: unchanged flag for an empty row,
otherwise exactly whether every cell of the row is a single letter (the
break at the first non-alphabetic cell does not change the verdict). -/
lemma rowScan_eq (flag : Option Bool) (row : List String) :
    rowScan flag row = if row.isEmpty then flag else some (row.all isAlphaCell) := by
  induction row generalizing flag with
  | nil => rfl
  | cons c rest ih =>
    simp only [rowScan, List.all_cons, List.isEmpty_cons]
    by_cases hc : isAlphaCell c
    · rw [if_pos hc, ih]
      cases rest <;> simp [hc]
    · simp [hc]

lemma jsOrString_ne_empty (a : Option String) (b : String) (hb : b ≠ "") :
    jsOrString a b ≠ "" := by
  match a with
  | none => simpa [jsOrString]
  | some s =>
      simp only [jsOrString]
      split
      · exact hb
      · assumption

lemma shapeInv_initializeMatrix (s : LinearState) (h : 2 ≤ s.numEquations) :
    LinearShapeInv (initializeMatrix s) := by
  refine ⟨h, by simp [initializeMatrix], ?_, by simp [initializeMatrix],
    by simp [initializeMatrix]⟩
  intro row hrow
  simp only [initializeMatrix] at hrow ⊢
  rw [(List.mem_replicate.mp hrow).2]
  simp

lemma shapeInv_addEquation (s : LinearState) (h : LinearShapeInv s) :
    LinearShapeInv (addEquation s) := by
  obtain ⟨h2, hm, hrows, hc, hg⟩ := h
  refine ⟨by simp [addEquation]; omega, by simp [addEquation, hm], ?_,
    by simp [addEquation, hc], by simp [addEquation, hg]⟩
  intro row hrow
  simp only [addEquation, List.mem_append, List.mem_map, List.mem_singleton] at hrow ⊢
  rcases hrow with ⟨r, hr, rfl⟩ | rfl
  · simp [hrows r hr]
  · simp

lemma shapeInv_removeEquation (s : LinearState) (h : LinearShapeInv s) :
    LinearShapeInv (removeEquation s) := by
  obtain ⟨h2, hm, hrows, hc, hg⟩ := h
  by_cases h3 : 2 < s.numEquations
  · simp only [removeEquation, if_pos h3]
    refine ⟨by simp; omega, by simp [hm], ?_, by simp [hc], by simp [hg]⟩
    intro row hrow
    have hrow2 : row ∈ s.matrix.map List.dropLast :=
      (List.dropLast_sublist _).subset hrow
    obtain ⟨r, hr, rfl⟩ := List.mem_map.mp hrow2
    simp [hrows r hr]
  · simp only [removeEquation, if_neg h3]
    exact ⟨h2, hm, hrows, hc, hg⟩

lemma shapeInv_clearAll (s : LinearState) (h : LinearShapeInv s) :
    LinearShapeInv (clearAll s) := by
  obtain ⟨a, b, c, d, e⟩ := shapeInv_initializeMatrix s h.1
  exact ⟨a, b, c, d, e⟩

lemma removeEquation_noop (s : LinearState) (h : s.numEquations ≤ 2) :
    removeEquation s = s := by
  unfold removeEquation
  rw [if_neg (by omega)]

/-! ## Claim theorems -/

/-- Claim C1: before a linear-system solve request is transmitted,
`ApiService.solveSystem` (both default-filling revisions) replaces every
empty-string cell of the matrix and of the constants array with `"0"` and
every empty-string cell of the initial-guess array with `"1"`, leaving all
non-empty cells unchanged. -/
theorem solveSystem_fills_defaults (req : SolveRequest) (g : List String)
    (hg : req.initialGuess = some g) (out : SolveRequest)
    (hout : solveSystemPrepareA req = Except.ok out ∨ solveSystemPrepareB req = Except.ok out) :
    (∀ i j : Nat, getCell req.matrix i j = some "" → getCell out.matrix i j = some "0") ∧
    (∀ (i j : Nat) (c : String), getCell req.matrix i j = some c → c ≠ "" →
      getCell out.matrix i j = some c) ∧
    (∀ i : Nat, req.constants[i]? = some "" → out.constants[i]? = some "0") ∧
    (∀ (i : Nat) (c : String), req.constants[i]? = some c → c ≠ "" →
      out.constants[i]? = some c) ∧
    (∃ g2 : List String, out.initialGuess = some g2 ∧
      (∀ i : Nat, g[i]? = some "" → g2[i]? = some "1") ∧
      (∀ (i : Nat) (c : String), g[i]? = some c → c ≠ "" → g2[i]? = some c)) := by
  have hfields : out.matrix = req.matrix.map (fun row => row.map fillCellZero) ∧
      out.constants = req.constants.map fillCellZero ∧
      out.initialGuess = some (g.map fillCellOne) := by
    rcases hout with h | h <;>
      · simp only [solveSystemPrepareA, solveSystemPrepareB, hg] at h
        cases h
        exact ⟨rfl, rfl, rfl⟩
  obtain ⟨hm, hc, hig⟩ := hfields
  refine ⟨?_, ?_, ?_, ?_, g.map fillCellOne, hig, ?_, ?_⟩
  · intro i j h
    rw [hm, getCell_map, h]
    rfl
  · intro i j c h hc0
    rw [hm, getCell_map, h]
    simp [fillCellZero, hc0]
  · intro i h
    rw [hc, List.getElem?_map, h]
    rfl
  · intro i c h hc0
    rw [hc, List.getElem?_map, h]
    simp [fillCellZero, hc0]
  · intro i h
    rw [List.getElem?_map, h]
    rfl
  · intro i c h hc0
    rw [List.getElem?_map, h]
    simp [fillCellOne, hc0]

/-- Witness for C1 at `reqWithEmptyCells`. -/
theorem solveSystem_fills_defaults_witness :
    reqWithEmptyCells.initialGuess = some ["", "7"] ∧
    solveSystemPrepareA reqWithEmptyCells = Except.ok outWithEmptyCells ∧
    getCell outWithEmptyCells.matrix 0 0 = some "0" ∧
    getCell outWithEmptyCells.matrix 1 0 = some "x" ∧
    outWithEmptyCells.constants[0]? = some "0" ∧
    outWithEmptyCells.initialGuess = some ["1", "7"] := by
  have h := solveSystem_fills_defaults reqWithEmptyCells ["", "7"] rfl outWithEmptyCells
    (Or.inl rfl)
  exact ⟨rfl, rfl, h.1 0 0 rfl, h.2.1 1 0 "x" rfl (by decide), h.2.2.1 0 rfl, rfl⟩

/-- Counterexample to claim C2 as stated: the symbolic-detection loop can
leave `symbolic = true` although a cell it scanned is not a single
alphabetic character — on the matrix `[["1"], ["a"]]` the cell `"1"` is
scanned (it is the first cell of the first row, where the inner loop sets
the flag to `false` and breaks), yet the final flag is `true` because the
second row resets it. -/
theorem symbolic_scan_true_despite_nonalpha_scanned :
    symbolicScan none [["1"], ["a"]] = some true ∧
    "1" ∈ scannedCells [["1"], ["a"]] ∧
    isAlphaCell "1" = false := by
  refine ⟨by decide, by decide, by decide⟩

/-- Claim C2 (amended): the symbolic-detection loop sets the flag to `true`
only while every cell scanned so far *of the current row* is a single
alphabetic character; the inner cell loop breaks (but the outer row loop
does not) on the first non-alphabetic cell, so the final flag records only
the verdict of the last non-empty row — `true` exactly when every cell of
that row is a single alphabetic character — and therefore depends on the
iteration order over the rows (`[["1"], ["a"]]` yields `true` while the
row-swapped `[["a"], ["1"]]` yields `false`). -/
theorem symbolic_flag_last_row (flag : Option Bool) (rows : List (List String))
    (row : List String) (hrow : row ≠ []) :
    symbolicScan flag (rows ++ [row]) = some (row.all isAlphaCell) ∧
    symbolicScan none [["1"], ["a"]] = some true ∧
    symbolicScan none [["a"], ["1"]] = some false := by
  refine ⟨?_, by decide, by decide⟩
  simp only [symbolicScan, List.foldl_append, List.foldl_cons, List.foldl_nil]
  rw [rowScan_eq]
  simp [List.isEmpty_iff, hrow]

/-- Witness for C2's amended theorem at `rows = [["1"]]`, `row = ["a"]`. -/
theorem symbolic_flag_last_row_witness :
    (["a"] : List String) ≠ [] ∧
    symbolicScan none [["1"], ["a"]] = some (["a"].all isAlphaCell) :=
  ⟨by decide, (symbolic_flag_last_row none [["1"]] ["a"] (by decide)).1⟩

/-- Claim C3: in both components, `nextStep` increments the current step
index only while it is strictly below `steps.length - 1`; for an in-range
index the result never passes the last step, and at (or past) the last
step the simulation is stopped (`isPlaying` becomes `false`, the interval
handle is cleared) and the index does not advance. -/
theorem playback_never_past_last (sL : LinearState) (sR : RootFinderState) :
    ((sL.currentStep ≤ (sL.steps.length : Int) - 1 →
        (linNextStep sL).currentStep ≤ (sL.steps.length : Int) - 1) ∧
     (sL.currentStep < (sL.steps.length : Int) - 1 →
        (linNextStep sL).currentStep = sL.currentStep + 1) ∧
     ((sL.steps.length : Int) - 1 ≤ sL.currentStep →
        (linNextStep sL).isPlaying = false ∧
        (linNextStep sL).simulationInterval = none ∧
        (linNextStep sL).currentStep = sL.currentStep)) ∧
    ((sR.currentStep ≤ (sR.steps.length : Int) - 1 →
        (rootNextStep sR).currentStep ≤ (sR.steps.length : Int) - 1) ∧
     (sR.currentStep < (sR.steps.length : Int) - 1 →
        (rootNextStep sR).currentStep = sR.currentStep + 1) ∧
     ((sR.steps.length : Int) - 1 ≤ sR.currentStep →
        (rootNextStep sR).isPlaying = false ∧
        (rootNextStep sR).simulationInterval = none ∧
        (rootNextStep sR).currentStep = sR.currentStep)) := by
  constructor
  · by_cases hc : sL.currentStep < (sL.steps.length : Int) - 1
    · simp only [linNextStep, if_pos hc]
      exact ⟨fun _ => by omega, fun _ => trivial, fun hge => absurd hc (by omega)⟩
    · simp only [linNextStep, if_neg hc, linStopSimulation]
      exact ⟨fun h => h, fun hlt => absurd hlt hc, fun _ => ⟨trivial, trivial, trivial⟩⟩
  · by_cases hc : sR.currentStep < (sR.steps.length : Int) - 1
    · simp only [rootNextStep, if_pos hc]
      exact ⟨fun _ => by omega, fun _ => trivial, fun hge => absurd hc (by omega)⟩
    · simp only [rootNextStep, if_neg hc, rootStopSimulation]
      exact ⟨fun h => h, fun hlt => absurd hlt hc, fun _ => ⟨trivial, trivial, trivial⟩⟩

/-- Witness for C3 on two-step playbacks starting at step 0. -/
theorem playback_never_past_last_witness :
    (linNextStep { initialLinearState with steps := ["s1", "s2"] }).currentStep ≤
      ((({ initialLinearState with steps := ["s1", "s2"] } : LinearState).steps.length : Int) - 1) ∧
    (rootNextStep { initialRootState with steps := ["s1", "s2"] }).currentStep ≤
      ((({ initialRootState with steps := ["s1", "s2"] } : RootFinderState).steps.length : Int) - 1) := by
  have h := playback_never_past_last { initialLinearState with steps := ["s1", "s2"] }
    { initialRootState with steps := ["s1", "s2"] }
  exact ⟨h.1.1 (by decide), h.2.1 (by decide)⟩

/-- Counterexample to claim C4 as stated: the linear-system component's
error handler consults only the body's `message` field, so on a body whose
`error` field is present (and `message` absent) it falls back to the fixed
default instead of the `error` field's value. -/
theorem linear_error_handler_ignores_error_field :
    (linHandleSolveOnError initialLinearState
        (some { error := some "matrix is singular", message := none })).errorMessage =
      "An error occurred" ∧
    "An error occurred" ≠ "matrix is singular" ∧
    (linHandleSolveOnError initialLinearState
        (some { error := some "matrix is singular", message := none })).loading = false :=
  ⟨rfl, by decide, rfl⟩

/-- Claim C4 (amended): a failed solve request leaves `loading` false and
populates the error-message field with a non-empty string; the root-finder
takes it from the HTTP error body's `error` field, then its `message`
field, then a fixed default, while the linear-system component takes it
from the `message` field only, then a fixed default (a field that is
absent or holds the empty string is skipped). -/
theorem error_handler_populates_message (sL : LinearState) (sR : RootFinderState)
    (body : Option HttpErrorBody) :
    (linHandleSolveOnError sL body).loading = false ∧
    (rootHandleSolveOnError sR body).loading = false ∧
    (linHandleSolveOnError sL body).errorMessage ≠ "" ∧
    (rootHandleSolveOnError sR body).errorMessage ≠ "" ∧
    (∀ m : String, body.bind HttpErrorBody.message = some m → m ≠ "" →
      (linHandleSolveOnError sL body).errorMessage = m) ∧
    ((body.bind HttpErrorBody.message = none ∨ body.bind HttpErrorBody.message = some "") →
      (linHandleSolveOnError sL body).errorMessage = "An error occurred") ∧
    (∀ e : String, body.bind HttpErrorBody.error = some e → e ≠ "" →
      (rootHandleSolveOnError sR body).errorMessage = e) ∧
    (∀ m : String,
      (body.bind HttpErrorBody.error = none ∨ body.bind HttpErrorBody.error = some "") →
      body.bind HttpErrorBody.message = some m → m ≠ "" →
      (rootHandleSolveOnError sR body).errorMessage = m) ∧
    ((body.bind HttpErrorBody.error = none ∨ body.bind HttpErrorBody.error = some "") →
      (body.bind HttpErrorBody.message = none ∨ body.bind HttpErrorBody.message = some "") →
      (rootHandleSolveOnError sR body).errorMessage = "An error occurred while solving") := by
  refine ⟨rfl, rfl, ?_, ?_, ?_, ?_, ?_, ?_, ?_⟩
  · exact jsOrString_ne_empty _ _ (by decide)
  · exact jsOrString_ne_empty _ _ (jsOrString_ne_empty _ _ (by decide))
  · intro m hm hne
    simp [linHandleSolveOnError, hm, jsOrString, hne]
  · rintro (h | h) <;> simp [linHandleSolveOnError, h, jsOrString]
  · intro e he hne
    simp [rootHandleSolveOnError, he, jsOrString, hne]
  · rintro m (h | h) hm hne <;> simp [rootHandleSolveOnError, h, hm, jsOrString, hne]
  · rintro (h | h) (h2 | h2) <;> simp [rootHandleSolveOnError, h, h2, jsOrString]

/-- Witness for C4's amended theorem on concrete error bodies. -/
theorem error_handler_populates_message_witness :
    ((some { error := none, message := some "bad matrix" } : Option HttpErrorBody).bind
        HttpErrorBody.message = some "bad matrix") ∧
    ("bad matrix" : String) ≠ "" ∧
    (linHandleSolveOnError initialLinearState
        (some { error := none, message := some "bad matrix" })).errorMessage = "bad matrix" ∧
    (rootHandleSolveOnError initialRootState
        (some { error := some "diverged", message := none })).errorMessage = "diverged" :=
  ⟨rfl, by decide,
   (error_handler_populates_message initialLinearState initialRootState
      (some { error := none, message := some "bad matrix" })).2.2.2.2.1
      "bad matrix" rfl (by decide),
   (error_handler_populates_message initialLinearState initialRootState
      (some { error := some "diverged", message := none })).2.2.2.2.2.2.1
      "diverged" rfl (by decide)⟩

/-- Counterexample to claim C5 as stated: in the strict-equality revision
(`solveSystemPrepareB`, from `src/unnamed/part_000`) a request whose
`precision` field is missing (`undefined`) is transmitted with the field
still missing — `precision === null` is false for `undefined`, so the
default `5` is not filled in. -/
theorem precision_missing_strict_rev_not_filled :
    (solveSystemPrepareB reqMissingPrecision).map SolveRequest.precision =
      Except.ok JSNum.jsUndef ∧
    JSNum.jsUndef ≠ JSNum.val 5 :=
  ⟨rfl, by decide⟩

/-- Claim C5 (amended): the loose-equality revision (`solveSystemPrepareA`,
default 4) fills the default for a `precision` that is `null` or
`undefined`; the strict-equality revision (`solveSystemPrepareB`, default
5) fills it only for `null` and transmits an `undefined` precision
unchanged; a request already carrying a numeric precision is transmitted
with that value unchanged by both revisions. -/
theorem precision_default_by_revision (req : SolveRequest) (g : List String)
    (hg : req.initialGuess = some g) (outA outB : SolveRequest)
    (hA : solveSystemPrepareA req = Except.ok outA)
    (hB : solveSystemPrepareB req = Except.ok outB) :
    (req.precision = JSNum.jsNull ∨ req.precision = JSNum.jsUndef →
      outA.precision = JSNum.val 4) ∧
    (req.precision = JSNum.jsNull → outB.precision = JSNum.val 5) ∧
    (req.precision = JSNum.jsUndef → outB.precision = JSNum.jsUndef) ∧
    (∀ n : Int, req.precision = JSNum.val n →
      outA.precision = JSNum.val n ∧ outB.precision = JSNum.val n) := by
  simp only [solveSystemPrepareA, hg] at hA
  simp only [solveSystemPrepareB, hg] at hB
  cases hA
  cases hB
  refine ⟨?_, ?_, ?_, ?_⟩
  · rintro (h | h) <;> simp [fillPrecisionLoose, h]
  · intro h
    simp [fillPrecisionStrict, h]
  · intro h
    simp [fillPrecisionStrict, h]
  · intro n h
    simp [fillPrecisionLoose, fillPrecisionStrict, h]

/-- Witness for C5's amended theorem at `reqNullPrecision`. -/
theorem precision_default_by_revision_witness :
    reqNullPrecision.initialGuess = some [""] ∧
    solveSystemPrepareA reqNullPrecision = Except.ok outNullPrecisionA ∧
    solveSystemPrepareB reqNullPrecision = Except.ok outNullPrecisionB ∧
    outNullPrecisionA.precision = JSNum.val 4 ∧
    outNullPrecisionB.precision = JSNum.val 5 := by
  have h := precision_default_by_revision reqNullPrecision [""] rfl
    outNullPrecisionA outNullPrecisionB rfl rfl
  exact ⟨rfl, rfl, rfl, h.1 (Or.inl rfl), h.2.1 rfl⟩

/-- Claim C6: the dark-mode flag computed at load
(`ThemeService.getInitialTheme`) equals the stored `localStorage['darkMode']`
string compared to `"true"` — in particular it recovers any boolean last
written through `String(·)` — and when the key is absent it equals the
operating system's `prefers-color-scheme: dark` preference. -/
theorem theme_load_matches_storage (b osPref : Bool) (s : String) :
    getInitialTheme (some (jsStringOfBool b)) osPref = b ∧
    getInitialTheme (some s) osPref = (s == "true") ∧
    getInitialTheme none osPref = osPref := by
  refine ⟨?_, rfl, rfl⟩
  cases b <;> rfl

/-- Claim C7: `ThemeService.toggleDarkMode` flips the in-memory flag to the
opposite boolean, writes its string form under `localStorage['darkMode']`,
and updates the root element's class list so that `"dark"` is present
exactly when the new value is `true`. -/
theorem toggle_writes_opposite (s : ThemeState) :
    (toggleDarkMode s).darkMode = !s.darkMode ∧
    (toggleDarkMode s).storedDarkMode = some (jsStringOfBool (!s.darkMode)) ∧
    (toggleDarkMode s).rootClasses.contains "dark" = !s.darkMode := by
  refine ⟨rfl, rfl, ?_⟩
  show (applyTheme s.rootClasses (!s.darkMode)).contains "dark" = !s.darkMode
  cases h : !s.darkMode <;>
    simp [applyTheme, mem_classListAdd, not_mem_classListRemove]

/-- Counterexample to claim C8 as stated: invoking
`LinearSystemSolverComponent.handleSolve` on a state whose `loading` flag
is already `true` still issues an HTTP request — the method contains no
loading-based gate. -/
theorem handleSolve_no_loading_gate_cex :
    ({ initialLinearState with loading := true } : LinearState).loading = true ∧
    ((linHandleSolve { initialLinearState with loading := true }).2).isSome = true :=
  ⟨rfl, rfl⟩

/-- Claim C8 (amended): `handleSolve` itself performs no loading-based
gating — in both components, invoking it always issues exactly one HTTP
request and sets `loading` to `true`, regardless of the current value of
`loading`; any prevention of duplicate submissions must come from the
component template disabling the solve control, not from this code. -/
theorem handleSolve_always_issues (sL : LinearState) (sR : RootFinderState) :
    ((linHandleSolve sL).2).isSome = true ∧
    (linHandleSolve sL).1.loading = true ∧
    ((rootHandleSolve sR).2).isSome = true ∧
    (rootHandleSolve sR).1.loading = true := by
  refine ⟨?_, rfl, rfl, rfl⟩
  simp [linHandleSolve, solveSystemPrepareA, Except.toOption]

/-- Claim C9: `ApiService.solveSystem` (both revisions) is only defined for
requests carrying an `initialGuess` array: when the field is absent the
non-null assertion `request.initialGuess!` makes the call throw a
`TypeError` and no HTTP request is transmitted; when the field is present
the preparation succeeds. -/
theorem solveSystem_requires_initialGuess (req : SolveRequest) :
    (req.initialGuess = none →
      solveSystemPrepareA req = Except.error JsError.typeError ∧
      solveSystemPrepareB req = Except.error JsError.typeError) ∧
    (∀ g : List String, req.initialGuess = some g →
      (solveSystemPrepareA req).isOk = true ∧ (solveSystemPrepareB req).isOk = true) := by
  constructor
  · intro h
    constructor <;> simp [solveSystemPrepareA, solveSystemPrepareB, h]
  · intro g hg
    constructor <;>
      simp [solveSystemPrepareA, solveSystemPrepareB, hg, Except.isOk, Except.toBool]

/-- Witness for C9 at `reqNoGuess` (absent field) and `reqNullPrecision`
(present field). -/
theorem solveSystem_requires_initialGuess_witness :
    reqNoGuess.initialGuess = none ∧
    solveSystemPrepareA reqNoGuess = Except.error JsError.typeError ∧
    solveSystemPrepareB reqNoGuess = Except.error JsError.typeError ∧
    (solveSystemPrepareA reqNullPrecision).isOk = true := by
  have h1 := (solveSystem_requires_initialGuess reqNoGuess).1 rfl
  have h2 := (solveSystem_requires_initialGuess reqNullPrecision).2 [""] rfl
  exact ⟨rfl, h1.1, h1.2, h2.1⟩

/-- Claim C10: the linear-system form's shape invariant — `numEquations ≥ 2`,
a square `numEquations` × `numEquations` matrix, and constants and
initial-guess arrays of length `numEquations` — is established by
`initializeMatrix` (in particular at `ngOnInit` on the initial state, where
`numEquations = 3`) and preserved by `addEquation`, `removeEquation` and
`clearAll`, with `removeEquation` refusing to shrink below 2 equations. -/
theorem linear_form_shape_invariant (s : LinearState) :
    LinearShapeInv (ngOnInit initialLinearState) ∧
    (2 ≤ s.numEquations → LinearShapeInv (initializeMatrix s)) ∧
    (LinearShapeInv s → LinearShapeInv (addEquation s)) ∧
    (LinearShapeInv s → LinearShapeInv (removeEquation s)) ∧
    (LinearShapeInv s → LinearShapeInv (clearAll s)) ∧
    (s.numEquations ≤ 2 → removeEquation s = s) :=
  ⟨shapeInv_initializeMatrix initialLinearState (by decide),
   shapeInv_initializeMatrix s, shapeInv_addEquation s, shapeInv_removeEquation s,
   shapeInv_clearAll s, removeEquation_noop s⟩

/-- Witness for C10 at the initial component state. -/
theorem linear_form_shape_invariant_witness :
    2 ≤ initialLinearState.numEquations ∧
    LinearShapeInv (initializeMatrix initialLinearState) ∧
    ({ initialLinearState with numEquations := 2 } : LinearState).numEquations ≤ 2 ∧
    removeEquation { initialLinearState with numEquations := 2 } =
      { initialLinearState with numEquations := 2 } :=
  ⟨by decide, (linear_form_shape_invariant initialLinearState).2.1 (by decide),
   by decide,
   (linear_form_shape_invariant { initialLinearState with numEquations := 2 }).2.2.2.2.2
     (by decide)⟩

end NumPhase1
